import Mathlib

/-!
Shallow embedding of `src/web-scraper/web-scraper.py` (class `WebScraper`
and the `__main__` orchestration), together with models of its external
collaborators.

The repository file imports `db_utils.DBUtils` and `config`, which are not
part of the source tree; their behaviour is modelled from the spec (§4.1
RecordStore: `get`, `insertIfAbsent`).  The remote collaborators (Flickr
photo search, Google Maps geocoding, `multiprocessing.pool.Pool`) are
parameters of the embedding.

Python strings model as `String`; `str(x)` on a field that is already a
string is the identity, so the stringification in the source is implicit.
Python ints model as `Int` (page counts, which the API reports as
non-negative, as `Nat`).
-/

namespace WebScraperModel

/-- A raw photo record as returned by the Flickr search collaborator:
`{id, title, latitude, longitude}` (the fields the source reads). -/
structure Photo where
  id : String
  title : String
  latitude : String
  longitude : String
deriving DecidableEq, Repr

/-- A persisted row of the `image_metadata` table:
`(id, title, latitude, longitude)`, the tuple built at line 160. -/
structure ImageRow where
  id : String
  title : String
  latitude : String
  longitude : String
deriving DecidableEq, Repr

/-- A persisted row of the `geo_info` table:
`(search_text, latitude, longitude)`, the tuple built at line 142. -/
structure GeoEntry where
  search_text : String
  latitude : String
  longitude : String
deriving DecidableEq, Repr

/-- One geocoder match: the `['geometry']['location']` object with its
`lat` and `lng` fields (already stringified). -/
structure GeoMatch where
  lat : String
  lng : String
deriving DecidableEq, Repr

/-- The local store: the two tables of §6 (`geo_info` keyed by
`search_text`, `image_metadata` keyed by `id`). -/
structure DB where
  geo_info : List GeoEntry
  image_metadata : List ImageRow
deriving DecidableEq, Repr

/-- Modelled from the spec: `DBUtils.get_data(geo_info_table, 'search_text', key)`
(`db_utils.py` is not in the source tree).  §4.1: `get(table, keyField,
keyValue)` — the rows whose key field equals the key. -/
def getGeoData (db : DB) (key : String) : List GeoEntry :=
  db.geo_info.filter (fun r => r.search_text == key)

/-- Modelled from the spec: `DBUtils.get_data(image_metadata_table, 'id', key)`
(`db_utils.py` is not in the source tree). -/
def getImageData (db : DB) (key : String) : List ImageRow :=
  db.image_metadata.filter (fun r => r.id == key)

/-- Modelled from the spec: `DBUtils.insert_data(geo_info_table, row)`
(`db_utils.py` is not in the source tree).  §4.1 `insertIfAbsent`: a no-op
when a row with the same primary key (`search_text`) already exists,
atomic per call. -/
def insertGeoData (db : DB) (row : GeoEntry) : DB :=
  if (getGeoData db row.search_text).isEmpty then
    { db with geo_info := db.geo_info ++ [row] }
  else db

/-- Modelled from the spec: `DBUtils.insert_data(image_metadata_table, row)`
(`db_utils.py` is not in the source tree).  §4.1 `insertIfAbsent` keyed by
`id`, atomic per call. -/
def insertImageData (db : DB) (row : ImageRow) : DB :=
  if (getImageData db row.id).isEmpty then
    { db with image_metadata := db.image_metadata ++ [row] }
  else db

/-- `WebScraper.get_missing_geo_data` (lines 128–145).  The remote
geocoder is the parameter `geocode` (the `self.maps.geocode` collaborator).
Returns the tuple the Python function returns (`none` models the empty
tuple `()`), the store after the call, and the number of remote geocode
calls the invocation made. -/
def get_missing_geo_data (geocode : String → List GeoMatch) (db : DB)
    (search_text : String) : Option (String × String × String) × DB × Nat :=
  let result := getGeoData db search_text
  match result with
  | r :: _ => (some (r.search_text, r.latitude, r.longitude), db, 0)
  | [] =>
    match geocode search_text with
    | g :: _ =>
      let params : String × String × String := (search_text, g.lat, g.lng)
      (some params, insertGeoData db ⟨search_text, g.lat, g.lng⟩, 1)
    | [] => (none, db, 1)

/-- `WebScraper.insert_image_metadata_db` (lines 147–161).  Returns the
store after the call and the number of remote geocode calls made. -/
def insert_image_metadata_db (geocode : String → List GeoMatch) (db : DB)
    (photo : Photo) (search_text : String) : DB × Nat :=
  let result := getImageData db photo.id
  if result.isEmpty then
    let state :=
      if photo.latitude == "0" || photo.longitude == "0" then
        match get_missing_geo_data geocode db search_text with
        | (some geo_data, db₁, c) =>
          ({ photo with latitude := geo_data.2.1, longitude := geo_data.2.2 }, db₁, c)
        | (none, db₁, c) => (photo, db₁, c)
      else (photo, db, 0)
    let params : ImageRow :=
      ⟨state.1.id, state.1.title, state.1.latitude, state.1.longitude⟩
    (insertImageData state.2.1 params, state.2.2)
  else (db, 0)

/-- The mutable state of a `WebScraper` instance: the fields the
constructor assigns that the orchestration reads (the external handles —
`flickr`, `maps`, `dbutils`, `logger`, `no_of_processors` — are passed to
the embedded functions as parameters instead). -/
structure WebScraper where
  search_text_list : List String
  photos_per_page : Int
  extras : String
deriving DecidableEq, Repr

/-- `WebScraper.__init__` (lines 33–54): stores the search list and extras,
and clamps `photos_per_page` at 500 (`if photos_per_page > 500: 500 else:
photos_per_page`). -/
def WebScraper.init (search_text_list : List String) (photos_per_page : Int)
    (extras : String) : WebScraper :=
  { search_text_list := search_text_list
    photos_per_page := if photos_per_page > 500 then 500 else photos_per_page
    extras := extras }

/-- The `search_text_prop` getter (lines 56–62): returns the list. -/
def search_text_prop (s : WebScraper) : List String :=
  s.search_text_list

/-- The `search_text_prop` setter (lines 64–70): `self.search_text_list.append(search_text)`. -/
def set_search_text_prop (s : WebScraper) (search_text : String) : WebScraper :=
  { s with search_text_list := s.search_text_list ++ [search_text] }

/-- The `photos_per_page_prop` getter (lines 72–78). -/
def photos_per_page_prop (s : WebScraper) : Int :=
  s.photos_per_page

/-- The `photos_per_page_prop` setter (lines 80–86):
`self.photos_per_page = photos_per_page`, with no clamping. -/
def set_photos_per_page_prop (s : WebScraper) (photos_per_page : Int) : WebScraper :=
  { s with photos_per_page := photos_per_page }

/-- The remote Flickr photo-search collaborator
(`self.flickr.photos.search`): `pages` is the reported page count
`['photos']['pages']` for a (text, per_page, extras) query, and `photosAt`
is the record list `['photos']['photo']` of a numbered page. -/
structure Flickr where
  pages : String → Int → String → Nat
  photosAt : String → Int → String → Nat → List Photo

/-- `WebScraper.get_no_of_pages` (lines 163–169). -/
def get_no_of_pages (flickr : Flickr) (s : WebScraper) (search_text : String) : Nat :=
  flickr.pages search_text s.photos_per_page s.extras

/-- One numbered page request issued by `get_pages`: the page number and
the `per_page` value sent with it. -/
structure PageRequest where
  page : Nat
  per_page : Int
deriving DecidableEq, Repr

/-- The per-page `sub_process_pool.map` of line 182: every photo of the
page is processed by `insert_image_metadata_db`; the pool is fully drained
before the caller proceeds, so its store effect is the fold of the
per-record effects. -/
def processPage (geocode : String → List GeoMatch) (search_text : String)
    (db : DB) (photos : List Photo) : DB :=
  photos.foldl (fun d p => (insert_image_metadata_db geocode d p search_text).1) db

/-- One iteration of the page loop of `get_pages` (lines 178–184): fetch
the numbered page, process its photos through the per-page pool, and log
the request. -/
def get_pages_step (flickr : Flickr) (geocode : String → List GeoMatch)
    (s : WebScraper) (search_text : String) (acc : DB × List PageRequest)
    (page_no : Nat) : DB × List PageRequest :=
  let photos := flickr.photosAt search_text s.photos_per_page s.extras page_no
  (processPage geocode search_text acc.1 photos,
   acc.2 ++ [⟨page_no, s.photos_per_page⟩])

/-- `WebScraper.get_pages` (lines 171–184): `for page_no in range(1,
no_of_pages)`, fetch the page and process its photos.  Besides the store it
returns the log of numbered page requests issued, in order. -/
def get_pages (flickr : Flickr) (geocode : String → List GeoMatch)
    (s : WebScraper) (db : DB) (search_text : String) : DB × List PageRequest :=
  let no_of_pages := get_no_of_pages flickr s search_text
  (List.range' 1 (no_of_pages - 1)).foldl
    (get_pages_step flickr geocode s search_text) (db, [])

/-- The `__main__` orchestration (lines 206–218): `pool.map(scraper.get_pages,
scraper.search_text_prop)` — every search term runs `get_pages` against the
shared store. -/
def run_scraper (flickr : Flickr) (geocode : String → List GeoMatch)
    (s : WebScraper) (db : DB) : DB :=
  (search_text_prop s).foldl (fun d st => (get_pages flickr geocode s d st).1) db

/-! ### Fallible variant: a remote geocode call may raise

The source contains no `try`/`except`, so an exception raised by a
collaborator propagates out of the function that called it.  The fallible
embedding makes the geocoder (one concrete error source inside record
processing) return `Except`. -/

/-- `get_missing_geo_data` with a fallible remote geocoder: an exception
from `self.maps.geocode` propagates (no handler in the source); it occurs
before any store write of this invocation. -/
def get_missing_geo_dataE (geocode : String → Except String (List GeoMatch))
    (db : DB) (search_text : String) :
    Except String (Option (String × String × String) × DB) :=
  match getGeoData db search_text with
  | r :: _ => .ok (some (r.search_text, r.latitude, r.longitude), db)
  | [] =>
    match geocode search_text with
    | .error e => .error e
    | .ok (g :: _) =>
      .ok (some (search_text, g.lat, g.lng), insertGeoData db ⟨search_text, g.lat, g.lng⟩)
    | .ok [] => .ok (none, db)

/-- `insert_image_metadata_db` with a fallible remote geocoder: a raised
exception propagates out of the record's processing (no handler in the
source). -/
def insert_image_metadata_dbE (geocode : String → Except String (List GeoMatch))
    (db : DB) (photo : Photo) (search_text : String) : Except String DB :=
  let result := getImageData db photo.id
  if result.isEmpty then
    match
      (if photo.latitude == "0" || photo.longitude == "0" then
        match get_missing_geo_dataE geocode db search_text with
        | .error e => .error e
        | .ok (some geo_data, db₁) =>
          .ok ({ photo with latitude := geo_data.2.1, longitude := geo_data.2.2 }, db₁)
        | .ok (none, db₁) => .ok (photo, db₁)
      else .ok (photo, db) : Except String (Photo × DB)) with
    | .error e => .error e
    | .ok state =>
      .ok (insertImageData state.2
        ⟨state.1.id, state.1.title, state.1.latitude, state.1.longitude⟩)
  else .ok db

/-- Model of `multiprocessing.pool.Pool.map` over the photos of one page
(line 182): the pool executes every submitted task — a task that raises
does not cancel its siblings — and the first raised exception is re-raised
to the caller when the results are collected.  Returns the store after all
tasks ran and whether `map` re-raised. -/
def pool_mapE (geocode : String → Except String (List GeoMatch))
    (search_text : String) (db : DB) (photos : List Photo) : DB × Bool :=
  photos.foldl
    (fun acc p =>
      match insert_image_metadata_dbE geocode acc.1 p search_text with
      | .ok d => (d, acc.2)
      | .error _ => (acc.1, true))
    (db, false)

/-- One iteration of the page loop of `get_pagesE`.  The accumulator is
(store, an exception has been raised, numbered pages fetched); once an
exception has been raised the loop body is never reached (the exception
propagated out of `get_pages`), so later pages are not fetched. -/
def get_pages_stepE (flickr : Flickr) (geocode : String → Except String (List GeoMatch))
    (s : WebScraper) (search_text : String) (acc : DB × Bool × List Nat)
    (page_no : Nat) : DB × Bool × List Nat :=
  if acc.2.1 then acc
  else
    let photos := flickr.photosAt search_text s.photos_per_page s.extras page_no
    let r := pool_mapE geocode search_text acc.1 photos
    (r.1, r.2, acc.2.2 ++ [page_no])

/-- `get_pages` with a fallible remote geocoder: the page loop of lines
178–184, which has no handler, so an exception re-raised by
`sub_process_pool.map` aborts the remaining pages of the term. -/
def get_pagesE (flickr : Flickr) (geocode : String → Except String (List GeoMatch))
    (s : WebScraper) (db : DB) (search_text : String) : DB × Bool × List Nat :=
  let no_of_pages := get_no_of_pages flickr s search_text
  (List.range' 1 (no_of_pages - 1)).foldl
    (get_pages_stepE flickr geocode s search_text) (db, false, [])

/-! ### Interleaved concurrent invocations of `insert_image_metadata_db`

§5: workers are separate OS processes sharing only the store; the atomic
units are the individual store operations.  An invocation of
`insert_image_metadata_db` splits at its store operations into the
existence check (line 153) and the insert (line 161); the geo-resolution
operations in between read and write only the `geo_info` table, never
`image_metadata`, so for the `image_metadata` table they are an arbitrary
update of the `geo_info` component, folded into the worker's insert step
as the parameter `geoEff`. -/

/-- The control point an in-flight invocation of
`insert_image_metadata_db` has reached: has not yet run the existence
check; check found the id absent (will insert); check found it present
(skips, lines 154/161 not run); insert done. -/
inductive Phase where
  | pending
  | ready
  | skip
  | done
deriving DecidableEq, Repr

/-- One atomic step of worker `i`.  `rows i db` is the row the worker
would build at line 160 from the store `db` it sees (its `id` field is the
worker's photo id, fixed per invocation); `geoEff i db` is the `geo_info`
table after the worker's geo resolution against `db`. -/
def runStep (rows : Nat → DB → ImageRow) (geoEff : Nat → DB → List GeoEntry)
    (acc : (Nat → Phase) × DB) (i : Nat) : (Nat → Phase) × DB :=
  match acc.1 i with
  | .pending =>
    (fun j => if j = i then
        (if (getImageData acc.2 (rows i acc.2).id).isEmpty then .ready else .skip)
      else acc.1 j, acc.2)
  | .ready =>
    (fun j => if j = i then .done else acc.1 j,
     insertImageData { acc.2 with geo_info := geoEff i acc.2 } (rows i acc.2))
  | .skip => acc
  | .done => acc

/-- Run a schedule: an arbitrary interleaving of the atomic steps of the
concurrent invocations, given as the list of worker indices in execution
order.  All workers start before their check, on the shared store `db`. -/
def runSched (rows : Nat → DB → ImageRow) (geoEff : Nat → DB → List GeoEntry)
    (evs : List Nat) (db : DB) : (Nat → Phase) × DB :=
  evs.foldl (runStep rows geoEff) (fun _ => .pending, db)

/-! ## Helper lemmas -/

/-- The page loop logs exactly the page numbers it iterates over, each with
the scraper's `photos_per_page` as `per_page`. -/
theorem get_pages_foldl_log (flickr : Flickr) (geocode : String → List GeoMatch)
    (s : WebScraper) (search_text : String) (l : List Nat) (db : DB)
    (acc : List PageRequest) :
    (l.foldl (get_pages_step flickr geocode s search_text) (db, acc)).2
      = acc ++ l.map (fun pg => ⟨pg, s.photos_per_page⟩) := by
  induction l generalizing db acc with
  | nil => simp
  | cons a l ih =>
    simp only [List.foldl_cons, get_pages_step, List.map_cons]
    rw [ih]
    simp

/-- The request log of `get_pages`: the pages of `range(1, no_of_pages)`,
in order, each requested with the scraper's `photos_per_page`. -/
theorem get_pages_log_eq (flickr : Flickr) (geocode : String → List GeoMatch)
    (s : WebScraper) (db : DB) (search_text : String) :
    (get_pages flickr geocode s db search_text).2
      = (List.range' 1 (get_no_of_pages flickr s search_text - 1)).map
          (fun pg => ⟨pg, s.photos_per_page⟩) := by
  unfold get_pages
  rw [get_pages_foldl_log]
  simp

/-! ## Claims -/

/-- C10: assigning through the `search_text_prop` setter appends rather
than replaces: afterwards the list read back through `search_text_prop`
equals the old list followed by the assigned text. -/
theorem search_text_prop_setter_appends (s : WebScraper) (t : String) :
    search_text_prop (set_search_text_prop s t) = search_text_prop s ++ [t] :=
  rfl

/-- C9: the `photos_per_page_prop` setter stores the assigned value
verbatim, with no clamping — even above 500 — and page fetches after such
an assignment request exactly that many records per page. -/
theorem photos_per_page_prop_setter_no_clamp (s : WebScraper) (v : Int)
    (flickr : Flickr) (geocode : String → List GeoMatch) (db : DB)
    (search_text : String) :
    photos_per_page_prop (set_photos_per_page_prop s v) = v
    ∧ (get_pages flickr geocode (set_photos_per_page_prop s v) db search_text).2
        = (List.range' 1
             (get_no_of_pages flickr (set_photos_per_page_prop s v) search_text - 1)).map
            (fun pg => ⟨pg, v⟩) := by
  refine ⟨rfl, ?_⟩
  rw [get_pages_log_eq]
  rfl

/-- C7: the `WebScraper` constructor stores `min(photos_per_page, 500)`,
so every page request issued from a freshly constructed scraper carries a
`per_page` of at most 500. -/
theorem init_clamps_photos_per_page (l : List String) (p : Int) (e : String)
    (flickr : Flickr) (geocode : String → List GeoMatch) (db : DB)
    (search_text : String) :
    (WebScraper.init l p e).photos_per_page = min p 500
    ∧ min p 500 ≤ 500
    ∧ (get_pages flickr geocode (WebScraper.init l p e) db search_text).2
        = (List.range' 1
             (get_no_of_pages flickr (WebScraper.init l p e) search_text - 1)).map
            (fun pg => ⟨pg, min p 500⟩) := by
  have hmin : (WebScraper.init l p e).photos_per_page = min p 500 := by
    simp only [WebScraper.init]
    rcases le_or_lt p 500 with h | h
    · rw [if_neg (not_lt.mpr h)]
      exact (min_eq_left h).symm
    · rw [if_pos h]
      exact (min_eq_right h.le).symm
  refine ⟨hmin, min_le_right p 500, ?_⟩
  rw [get_pages_log_eq, hmin]

/-- C2: `get_pages` requests exactly the pages `range(1, no_of_pages)`,
i.e. pages 1 through P−1 for reported page count P; page P itself is never
requested; for P = 5 exactly pages 1–4 are fetched, and for P ≤ 1 no page
is fetched. -/
theorem get_pages_page_iteration (flickr : Flickr)
    (geocode : String → List GeoMatch) (s : WebScraper) (db : DB)
    (search_text : String) :
    (get_pages flickr geocode s db search_text).2.map PageRequest.page
        = List.range' 1 (get_no_of_pages flickr s search_text - 1)
    ∧ get_no_of_pages flickr s search_text
        ∉ (get_pages flickr geocode s db search_text).2.map PageRequest.page
    ∧ (get_no_of_pages flickr s search_text = 5 →
        (get_pages flickr geocode s db search_text).2.map PageRequest.page
          = [1, 2, 3, 4])
    ∧ (get_no_of_pages flickr s search_text ≤ 1 →
        (get_pages flickr geocode s db search_text).2.map PageRequest.page = []) := by
  have hlog : (get_pages flickr geocode s db search_text).2.map PageRequest.page
      = List.range' 1 (get_no_of_pages flickr s search_text - 1) := by
    rw [get_pages_log_eq, List.map_map]
    have hid : (PageRequest.page ∘ fun pg =>
        (⟨pg, s.photos_per_page⟩ : PageRequest)) = id := rfl
    rw [hid, List.map_id]
  refine ⟨hlog, ?_, ?_, ?_⟩
  · rw [hlog]
    intro hmem
    rw [List.mem_range'_1] at hmem
    omega
  · intro h5
    rw [hlog, h5]
    decide
  · intro h1
    rw [hlog]
    have : get_no_of_pages flickr s search_text - 1 = 0 := by omega
    rw [this]
    rfl

/-- Witness for C2 at a concrete input: a collaborator reporting 5 pages
yields fetches of exactly pages 1–4, and one reporting 1 page yields no
fetch. -/
theorem get_pages_page_iteration_witness :
    (get_pages ⟨fun _ _ _ => 5, fun _ _ _ _ => []⟩ (fun _ => [])
        (WebScraper.init [] 10 "geo") ⟨[], []⟩ "t").2.map PageRequest.page
      = [1, 2, 3, 4]
    ∧ (get_pages ⟨fun _ _ _ => 1, fun _ _ _ _ => []⟩ (fun _ => [])
        (WebScraper.init [] 10 "geo") ⟨[], []⟩ "t").2.map PageRequest.page
      = [] := by
  constructor
  · exact (get_pages_page_iteration ⟨fun _ _ _ => 5, fun _ _ _ _ => []⟩ (fun _ => [])
      (WebScraper.init [] 10 "geo") ⟨[], []⟩ "t").2.2.1 rfl
  · exact (get_pages_page_iteration ⟨fun _ _ _ => 1, fun _ _ _ _ => []⟩ (fun _ => [])
      (WebScraper.init [] 10 "geo") ⟨[], []⟩ "t").2.2.2 (by decide)

/-- Inserting a geo-cache row never touches the `image_metadata` table. -/
theorem insertGeoData_image_metadata (db : DB) (row : GeoEntry) :
    (insertGeoData db row).image_metadata = db.image_metadata := by
  unfold insertGeoData
  split <;> rfl

/-- Geo resolution never touches the `image_metadata` table. -/
theorem get_missing_geo_data_image_metadata (geocode : String → List GeoMatch)
    (db : DB) (search_text : String) :
    ((get_missing_geo_data geocode db search_text).2.1).image_metadata
      = db.image_metadata := by
  unfold get_missing_geo_data
  cases getGeoData db search_text with
  | nil =>
    cases geocode search_text with
    | nil => rfl
    | cons g gs => exact insertGeoData_image_metadata db ⟨search_text, g.lat, g.lng⟩
  | cons r rs => rfl

/-- Stores with the same `image_metadata` table answer image lookups the
same way. -/
theorem getImageData_congr (db₁ db₂ : DB)
    (h : db₁.image_metadata = db₂.image_metadata) (key : String) :
    getImageData db₁ key = getImageData db₂ key := by
  unfold getImageData
  rw [h]

/-- C1: for a record not yet persisted whose latitude or longitude is the
sentinel `"0"`, `insert_image_metadata_db` invokes the geo resolver for
the record's search text (its remote-call count and `geo_info` effect are
the resolver's), and persists the row with the resolved coordinates when
the resolver returns some, and with the original sentinel values when it
returns nothing. -/
theorem insert_image_metadata_db_sentinel (geocode : String → List GeoMatch)
    (db : DB) (photo : Photo) (search_text : String)
    (habs : getImageData db photo.id = [])
    (hsent : photo.latitude = "0" ∨ photo.longitude = "0") :
    (insert_image_metadata_db geocode db photo search_text).1.image_metadata
      = db.image_metadata ++
        [⟨photo.id, photo.title,
          (match (get_missing_geo_data geocode db search_text).1 with
           | some g => g.2.1
           | none => photo.latitude),
          (match (get_missing_geo_data geocode db search_text).1 with
           | some g => g.2.2
           | none => photo.longitude)⟩]
    ∧ (insert_image_metadata_db geocode db photo search_text).1.geo_info
        = (get_missing_geo_data geocode db search_text).2.1.geo_info
    ∧ (insert_image_metadata_db geocode db photo search_text).2
        = (get_missing_geo_data geocode db search_text).2.2 := by
  have hb : (photo.latitude == "0" || photo.longitude == "0") = true := by
    rcases hsent with h | h <;> simp [h]
  have himg := get_missing_geo_data_image_metadata geocode db search_text
  unfold insert_image_metadata_db
  rw [habs, hb]
  rcases hr : get_missing_geo_data geocode db search_text with ⟨res, db₁, c⟩
  have himg₁ : db₁.image_metadata = db.image_metadata := by
    rw [hr] at himg
    exact himg
  have habs₁ : getImageData db₁ photo.id = [] := by
    rw [getImageData_congr db₁ db himg₁, habs]
  cases res with
  | some g =>
    simp only [List.isEmpty_nil, if_true]
    unfold insertImageData
    simp only [habs₁, List.isEmpty_nil, if_true]
    exact ⟨by rw [himg₁], by trivial, by trivial⟩
  | none =>
    simp only [List.isEmpty_nil, if_true]
    unfold insertImageData
    simp only [habs₁, List.isEmpty_nil, if_true]
    exact ⟨by rw [himg₁], by trivial, by trivial⟩

/-- Witness for C1 at concrete inputs: an empty store, a record with
sentinel latitude, and a geocoder that resolves the search text. -/
theorem insert_image_metadata_db_sentinel_witness :
    (insert_image_metadata_db
        (fun _ => [⟨"1.5", "2.5"⟩]) ⟨[], []⟩ ⟨"A", "t", "0", "7"⟩ "x").1.image_metadata
      = [⟨"A", "t",
          (match (get_missing_geo_data (fun _ => [⟨"1.5", "2.5"⟩]) ⟨[], []⟩ "x").1 with
           | some g => g.2.1
           | none => "0"),
          (match (get_missing_geo_data (fun _ => [⟨"1.5", "2.5"⟩]) ⟨[], []⟩ "x").1 with
           | some g => g.2.2
           | none => "7")⟩] :=
  (insert_image_metadata_db_sentinel (fun _ => [⟨"1.5", "2.5"⟩]) ⟨[], []⟩
    ⟨"A", "t", "0", "7"⟩ "x" rfl (Or.inl rfl)).1

/-- C3: when the record id already exists in `image_metadata`,
`insert_image_metadata_db` is a no-op — unchanged store, zero remote
geocode calls. -/
theorem insert_image_metadata_db_skips_existing (geocode : String → List GeoMatch)
    (db : DB) (photo : Photo) (search_text : String)
    (hpres : getImageData db photo.id ≠ []) :
    insert_image_metadata_db geocode db photo search_text = (db, 0) := by
  unfold insert_image_metadata_db
  cases h : getImageData db photo.id with
  | nil => exact absurd h hpres
  | cons r rs => rfl

/-- Witness for C3 at a concrete input: a store already holding the id. -/
theorem insert_image_metadata_db_skips_existing_witness :
    insert_image_metadata_db (fun _ => [⟨"1.5", "2.5"⟩])
        ⟨[], [⟨"A", "old", "3", "4"⟩]⟩ ⟨"A", "t", "0", "0"⟩ "x"
      = (⟨[], [⟨"A", "old", "3", "4"⟩]⟩, 0) :=
  insert_image_metadata_db_skips_existing (fun _ => [⟨"1.5", "2.5"⟩])
    ⟨[], [⟨"A", "old", "3", "4"⟩]⟩ ⟨"A", "t", "0", "0"⟩ "x" (by decide)

/-- C4: a first `get_missing_geo_data` call on a cache miss that the
geocoder resolves makes one remote call, caches the coordinates, and
returns them; every subsequent call with the same search text — whatever
the remote geocoder would now answer — makes zero remote calls, leaves the
store unchanged, and returns exactly the cached coordinates. -/
theorem get_missing_geo_data_cache_hit (geocode geocode' : String → List GeoMatch)
    (db : DB) (search_text : String)
    (hmiss : getGeoData db search_text = [])
    (g : GeoMatch) (gs : List GeoMatch)
    (hres : geocode search_text = g :: gs) :
    get_missing_geo_data geocode db search_text
      = (some (search_text, g.lat, g.lng),
         insertGeoData db ⟨search_text, g.lat, g.lng⟩, 1)
    ∧ get_missing_geo_data geocode'
        (insertGeoData db ⟨search_text, g.lat, g.lng⟩) search_text
      = (some (search_text, g.lat, g.lng),
         insertGeoData db ⟨search_text, g.lat, g.lng⟩, 0) := by
  constructor
  · unfold get_missing_geo_data
    rw [hmiss, hres]
  · have hcache : getGeoData (insertGeoData db ⟨search_text, g.lat, g.lng⟩) search_text
        = [⟨search_text, g.lat, g.lng⟩] := by
      unfold insertGeoData
      rw [hmiss]
      simp only [List.isEmpty_nil, if_true]
      unfold getGeoData at hmiss ⊢
      simp [List.filter_append, hmiss]
    unfold get_missing_geo_data
    rw [hcache]

/-- Witness for C4 at concrete inputs: an empty store and a geocoder
resolving `"paris"`. -/
theorem get_missing_geo_data_cache_hit_witness :
    get_missing_geo_data (fun _ => [])
        (insertGeoData ⟨[], []⟩ ⟨"paris", "48.8", "2.3"⟩) "paris"
      = (some ("paris", "48.8", "2.3"),
         insertGeoData ⟨[], []⟩ ⟨"paris", "48.8", "2.3"⟩, 0) :=
  (get_missing_geo_data_cache_hit (fun _ => [⟨"48.8", "2.3"⟩]) (fun _ => [])
    ⟨[], []⟩ "paris" rfl ⟨"48.8", "2.3"⟩ [] rfl).2

/-- The end-to-end collaborators of C5: a photo search reporting 2 pages
with the single record `{id "A", title "t", latitude "0", longitude "0"}`
on page 1, and a geocoder resolving `"rome"` to (41.9, 12.5). -/
def flickrC5 : Flickr :=
  { pages := fun _ _ _ => 2
    photosAt := fun _ _ _ page_no =>
      if page_no = 1 then [⟨"A", "t", "0", "0"⟩] else [] }

/-- The C5 geocoder collaborator. -/
def geocodeC5 : String → List GeoMatch :=
  fun t => if t = "rome" then [⟨"41.9", "12.5"⟩] else []

/-- C5: on the concrete end-to-end scenario — search terms `["rome"]`,
page size 2, `flickrC5`, `geocodeC5`, empty store — the run ends with
exactly one `image_metadata` row `("A", "t", "41.9", "12.5")` and exactly
one `geo_info` row `("rome", "41.9", "12.5")`. -/
theorem end_to_end_rome :
    run_scraper flickrC5 geocodeC5 (WebScraper.init ["rome"] 2 "geo") ⟨[], []⟩
      = ⟨[⟨"rome", "41.9", "12.5"⟩], [⟨"A", "t", "41.9", "12.5"⟩]⟩ := by
  decide

/-- The C6 photo-search collaborator: 3 reported pages; page 1 holds a
record `B` with sentinel coordinates (whose geocode lookup will raise)
followed by a sibling `S` with coordinates; later pages hold a record `C`. -/
def flickrC6 : Flickr :=
  { pages := fun _ _ _ => 3
    photosAt := fun _ _ _ page_no =>
      if page_no = 1 then [⟨"B", "bad", "0", "0"⟩, ⟨"S", "sib", "1", "2"⟩]
      else [⟨"C", "c", "3", "4"⟩] }

/-- Counterexample to C6 as stated: with a geocoder that raises, the
failing record `B`'s sibling `S` is still processed (the pool runs every
submitted task), but the re-raised exception aborts the page loop — only
page 1 is fetched and record `C` of page 2 is never processed — whereas
the same run with a non-raising geocoder fetches pages 1 and 2 and
persists `B`, `S` and `C`.  The page orchestration does not continue. -/
theorem get_pagesE_error_aborts_remaining_pages :
    get_pagesE flickrC6 (fun _ => .error "boom")
        (WebScraper.init ["x"] 2 "geo") ⟨[], []⟩ "x"
      = (⟨[], [⟨"S", "sib", "1", "2"⟩]⟩, true, [1])
    ∧ get_pagesE flickrC6 (fun _ => .ok [])
        (WebScraper.init ["x"] 2 "geo") ⟨[], []⟩ "x"
      = (⟨[], [⟨"B", "bad", "0", "0"⟩, ⟨"S", "sib", "1", "2"⟩,
               ⟨"C", "c", "3", "4"⟩]⟩, false, [1, 2]) := by
  decide

/-- C6 amended: an error raised while processing one record does not
prevent the remaining records of that page from being processed — the
per-page pool runs every submitted record, a trailing record is processed
whatever happened before it — but the exception then re-raises out of the
pool's `map`, and the unhandled page loop stops: once an exception has
been raised, the loop step fetches no further page. -/
theorem pool_map_error_isolation_and_page_abort :
    (∀ (geocode : String → Except String (List GeoMatch)) (search_text : String)
        (db : DB) (photos : List Photo) (p : Photo),
      pool_mapE geocode search_text db (photos ++ [p])
        = (match insert_image_metadata_dbE geocode
              (pool_mapE geocode search_text db photos).1 p search_text with
           | .ok d => (d, (pool_mapE geocode search_text db photos).2)
           | .error _ => ((pool_mapE geocode search_text db photos).1, true)))
    ∧ ∀ (flickr : Flickr) (geocode : String → Except String (List GeoMatch))
        (s : WebScraper) (search_text : String) (db : DB) (ps : List Nat)
        (pg : Nat),
      get_pages_stepE flickr geocode s search_text (db, true, ps) pg
        = (db, true, ps) := by
  constructor
  · intro geocode search_text db photos p
    unfold pool_mapE
    rw [List.foldl_append]
    rfl
  · intro flickr geocode s search_text db ps pg
    rfl

/-- Image lookups ignore the `geo_info` table. -/
theorem getImageData_set_geo (db : DB) (g : List GeoEntry) (key : String) :
    getImageData { db with geo_info := g } key = getImageData db key :=
  rfl

/-- Inserting a row with the key's id: if-absent, the key now has exactly
one row; otherwise the count is unchanged. -/
theorem getImageData_insertImageData_length (db : DB) (row : ImageRow) :
    (getImageData (insertImageData db row) row.id).length
      = if (getImageData db row.id).isEmpty then 1
        else (getImageData db row.id).length := by
  unfold insertImageData
  cases hgd : getImageData db row.id with
  | nil =>
    simp only [hgd, List.isEmpty_nil, if_true]
    unfold getImageData at hgd ⊢
    simp [List.filter_append, hgd]
  | cons r rs => simp [hgd]

/-- One atomic step of a concurrent invocation keeps the dedup invariant:
at most one `image_metadata` row with the shared id, and any worker that
has passed its check with outcome skip, or has inserted, guarantees at
least one such row. -/
theorem runStep_inv (rows : Nat → DB → ImageRow) (geoEff : Nat → DB → List GeoEntry)
    (theId : String) (hid : ∀ i d, (rows i d).id = theId)
    (acc : (Nat → Phase) × DB) (i : Nat)
    (hA : (getImageData acc.2 theId).length ≤ 1)
    (hB : ∀ j, (acc.1 j = Phase.skip ∨ acc.1 j = Phase.done) →
      1 ≤ (getImageData acc.2 theId).length) :
    (getImageData (runStep rows geoEff acc i).2 theId).length ≤ 1
    ∧ ∀ j, ((runStep rows geoEff acc i).1 j = Phase.skip ∨
            (runStep rows geoEff acc i).1 j = Phase.done) →
        1 ≤ (getImageData (runStep rows geoEff acc i).2 theId).length := by
  rcases acc with ⟨s, db⟩
  simp only at hA hB
  cases hp : s i with
  | pending =>
    simp only [runStep, hp]
    refine ⟨hA, ?_⟩
    intro j hj
    by_cases hji : j = i
    · subst hji
      simp only [if_pos rfl] at hj
      by_cases hc : (getImageData db (rows j db).id).isEmpty
      · rw [if_pos hc] at hj
        rcases hj with h | h <;> exact Phase.noConfusion h
      · rw [hid j db] at hc
        cases hgd : getImageData db theId with
        | nil => rw [hgd] at hc; exact absurd rfl hc
        | cons r rs => simp [hgd]
    · rw [if_neg hji] at hj
      exact hB j hj
  | ready =>
    simp only [runStep, hp]
    have hL := getImageData_insertImageData_length
      { geo_info := geoEff i db, image_metadata := db.image_metadata } (rows i db)
    rw [hid i db] at hL
    have hcongr : getImageData
        { geo_info := geoEff i db, image_metadata := db.image_metadata } theId
        = getImageData db theId := rfl
    rw [hcongr] at hL
    by_cases hc : (getImageData db theId).isEmpty
    · rw [if_pos hc] at hL
      rw [hL]
      exact ⟨by omega, fun j hj => by omega⟩
    · rw [if_neg hc] at hL
      rw [hL]
      refine ⟨hA, ?_⟩
      intro j hj
      cases hgd : getImageData db theId with
      | nil => rw [hgd] at hc; simp at hc
      | cons r rs => exact Nat.succ_le_succ (Nat.zero_le rs.length)
  | skip =>
    simp only [runStep, hp]
    exact ⟨hA, hB⟩
  | done =>
    simp only [runStep, hp]
    exact ⟨hA, hB⟩

/-- The dedup invariant holds along any schedule. -/
theorem foldl_runStep_inv (rows : Nat → DB → ImageRow)
    (geoEff : Nat → DB → List GeoEntry) (theId : String)
    (hid : ∀ i d, (rows i d).id = theId) (evs : List Nat) :
    ∀ acc : (Nat → Phase) × DB,
      (getImageData acc.2 theId).length ≤ 1 →
      (∀ j, (acc.1 j = Phase.skip ∨ acc.1 j = Phase.done) →
        1 ≤ (getImageData acc.2 theId).length) →
      (getImageData (evs.foldl (runStep rows geoEff) acc).2 theId).length ≤ 1
      ∧ ∀ j, ((evs.foldl (runStep rows geoEff) acc).1 j = Phase.skip ∨
              (evs.foldl (runStep rows geoEff) acc).1 j = Phase.done) →
          1 ≤ (getImageData (evs.foldl (runStep rows geoEff) acc).2 theId).length := by
  induction evs with
  | nil => exact fun acc hA hB => ⟨hA, hB⟩
  | cons e evs ih =>
    intro acc hA hB
    rw [List.foldl_cons]
    have h := runStep_inv rows geoEff theId hid acc e hA hB
    exact ih _ h.1 h.2

/-- C8: under any interleaving of the atomic store operations of N
concurrent `insert_image_metadata_db` invocations whose records share one
id — the id not yet persisted — once every invocation has finished
(skipped or inserted), exactly one `image_metadata` row with that id is
persisted. -/
theorem concurrent_insert_image_metadata_dedup (rows : Nat → DB → ImageRow)
    (geoEff : Nat → DB → List GeoEntry) (theId : String) (N : Nat)
    (evs : List Nat) (db : DB)
    (hid : ∀ i d, (rows i d).id = theId)
    (_hws : ∀ e ∈ evs, e < N)
    (hfresh : getImageData db theId = [])
    (hN : 0 < N)
    (hdone : ∀ i, i < N →
      ((runSched rows geoEff evs db).1 i = Phase.skip ∨
       (runSched rows geoEff evs db).1 i = Phase.done)) :
    (getImageData (runSched rows geoEff evs db).2 theId).length = 1 := by
  have h := foldl_runStep_inv rows geoEff theId hid evs
    (fun _ => Phase.pending, db)
    (by simp [hfresh])
    (by
      intro j hj
      rcases hj with h | h <;> exact Phase.noConfusion h)
  unfold runSched at hdone ⊢
  have h1 := h.1
  have h2 := h.2 0 (hdone 0 hN)
  omega

/-- Witness for C8 at a concrete input: two invocations for id `"A"` whose
checks both precede both inserts, on an empty store. -/
theorem concurrent_insert_image_metadata_dedup_witness :
    (getImageData (runSched (fun _ _ => ⟨"A", "t", "1", "2"⟩)
        (fun _ d => d.geo_info) [0, 1, 0, 1] ⟨[], []⟩).2 "A").length = 1 :=
  concurrent_insert_image_metadata_dedup (fun _ _ => ⟨"A", "t", "1", "2"⟩)
    (fun _ d => d.geo_info) "A" 2 [0, 1, 0, 1] ⟨[], []⟩
    (fun _ _ => rfl) (by decide) rfl (by decide) (by decide)

end WebScraperModel
